import Mathlib

/-!
Verification of the epoch-metric accumulation core and the CohenKappa
constructor of this repository.

The `EpochMetric` class itself (`ignite/metrics/epoch_metric.py`) is not part
of the source excerpt; only its test-suite and two consumers
(`cohen_kappa.py`, `classification_report.py`) are.  The definitions below
therefore model the accumulation core from the specification (sections 3, 4.1
to 4.5 and 7), pinned by the behaviours the in-repository tests assert.
`CohenKappa.__init__` and `get_cohen_kappa_fn` are embedded directly from
`ignite/contrib/metrics/cohen_kappa.py`.

Tensors are modelled shallowly: a dtype tag, a shape (list of dimension
sizes), and the flattened data.  Concatenation along the batch dimension adds
the leading dimension sizes and appends the flattened payloads; the model
totalises `torch.cat` (on shape-incompatible inputs it returns a tensor with
an empty shape instead of raising), which is never reached by validated
accumulation states.
-/

/-- The tensor dtypes exercised by the test-suite (`torch.rand` produces
float32, `torch.randint(..., dtype=torch.long)` produces int64, plus the
int32/float64 conversions used in the dtype-incoherence tests). -/
inductive Dtype where
  | float32
  | float64
  | int32
  | int64
deriving DecidableEq

/-- A shallow tensor: dtype tag, shape, and flattened payload.  Values are
modelled as integers; only shapes, dtypes and the exact payload sequences
matter to the accumulation protocol. -/
structure Tensor where
  dtype : Dtype
  shape : List Nat
  data : List Int
deriving DecidableEq

/-- Shape of `torch.cat ([a, b], dim := 0)`: leading dimensions add, trailing
dimensions come from the first operand.  Totalised: if either shape is empty
(rank 0, on which `torch.cat` raises) the result shape is empty. -/
def catShape : List Nat → List Nat → List Nat
  | n :: ra, m :: _ => (n + m) :: ra
  | _, _ => []

/-- `torch.cat ([a, b], dim := 0)`: payloads append, leading dimensions add,
dtype of the first operand. -/
def Tensor.cat (a b : Tensor) : Tensor :=
  { dtype := a.dtype, shape := catShape a.shape b.shape, data := a.data ++ b.data }

/-- `torch.cat (ts, dim := 0)` over a list of tensors.  `torch.cat` raises on
an empty list; the model returns an empty rank-1 tensor there (never reached:
`compute` demands a non-empty accumulation first). -/
def catList : List Tensor → Tensor
  | [] => { dtype := Dtype.float32, shape := [0], data := [] }
  | t :: ts => ts.foldl Tensor.cat t

/-- `t.squeeze(dim := -1)` as applied by `update`: a rank-2 tensor whose
second dimension equals 1 becomes the rank-1 tensor with the same payload;
anything else is kept as-is.  Modelled from the spec: "if rank 2, the second
dimension must equal 1 (auto-squeezed to rank 1) or be treated as
multi-class/multi-label and kept as-is". -/
def maybeSqueeze (t : Tensor) : Tensor :=
  match t.shape with
  | [n, 1] => { t with shape := [n] }
  | _ => t

/-- Modelled from the spec: "predictions rank ∈ \x7b1, 2\x7d" (and the
analogous rule for targets); rank-0 and rank-3 tensors are invalid. -/
def validRank (t : Tensor) : Bool :=
  t.shape.length == 1 || t.shape.length == 2

/-- A Python value as returned by a user `compute_fn`: a plain number, a
tensor, a string, an ordered sequence, or a string-keyed mapping. -/
inductive PyValue where
  | num (n : Int)
  | tensor (t : Tensor)
  | str (s : String)
  | seq (xs : List PyValue)
  | map (kvs : List (String × PyValue))

/-- Whether a Python value is a tensor (`isinstance (x, torch.Tensor)`). -/
def PyValue.isTensor : PyValue → Bool
  | .tensor _ => true
  | _ => false

/-- Modelled from the spec (section 4.5) and pinned by
`test_is_scalar_or_collection_of_tensor`: the structural classifier
`_is_scalar_or_collection_of_tensor` of `ignite/metrics/epoch_metric.py`
(not in the excerpt).  A number or tensor is accepted; a sequence is accepted
iff every element is a tensor; a mapping is accepted iff every value is a
tensor; a bare string is rejected. -/
def _is_scalar_or_collection_of_tensor : PyValue → Bool
  | .num _ => true
  | .tensor _ => true
  | .str _ => false
  | .seq xs => xs.all PyValue.isTensor
  | .map kvs => kvs.all fun kv => kv.2.isTensor

/-- The `ValueError`s raised by `update` (spec section 4.1): shape validation
failures name the offending tensor ("Predictions should be of shape ...",
"Targets should be of shape ..."); dtype-coherence failures name the pair
("Incoherent types between input y_pred and stored predictions",
"Incoherent types between input y and stored targets"). -/
inductive UpdateError where
  | predShape
  | targetShape
  | predDtype
  | targetDtype
deriving DecidableEq

/-- The errors raised by `compute` (spec sections 4.3 to 4.5 and 7):
`NotComputableError` on an empty accumulation, a `TypeError` on an
unsupported `compute_fn` return value, and a verbatim propagation of any
exception `compute_fn` itself raises at real compute time. -/
inductive ComputeError where
  | notComputable
  | outputNotSupported
  | computeFnRaised (msg : String)
deriving DecidableEq

/-- Modelled from the spec (section 3): the accumulation state of one
`EpochMetric` instance — two parallel append-only sequences of stored
prediction and target tensors. -/
structure EpochMetricState where
  _predictions : List Tensor
  _targets : List Tensor
deriving DecidableEq

/-- `reset()`: clears both sequences (also the state right after
construction). -/
def EpochMetricState.reset : EpochMetricState :=
  { _predictions := [], _targets := [] }

/-- Dtype-coherence check of a (squeezed) incoming tensor against the first
stored tensor of the corresponding sequence; vacuous when nothing is stored
yet.  Modelled from the spec: "if prior batches exist, the new predictions
dtype must equal the dtype of previously stored predictions; same
independently for targets". -/
def dtypeMismatch (t : Tensor) : List Tensor → Bool
  | [] => false
  | p :: _ => decide (t.dtype ≠ p.dtype)

/-- Modelled from the spec (sections 4.1 and 4.2): `EpochMetric.update`.
Validation order follows section 4.1: predictions rank, then targets rank,
then the squeeze, then predictions dtype coherence, then targets dtype
coherence; on failure the batch is rejected and no state is produced.  On
success the squeezed halves are appended.  When `check_compute_fn` is set and
this was the very first stored batch, `compute_fn` is invoked on that batch;
an exception is caught and reported as a non-fatal `EpochMetricWarning`
(the returned Bool flag) while the update still completes.  A user
`compute_fn` is modelled as a pure function into `Except String PyValue`:
an `Except.error` models a raised Python exception. -/
def update (check_compute_fn : Bool)
    (compute_fn : Tensor → Tensor → Except String PyValue)
    (st : EpochMetricState) (y_pred y : Tensor) :
    Except UpdateError (EpochMetricState × Bool) :=
  if ¬ validRank y_pred then .error .predShape
  else if ¬ validRank y then .error .targetShape
  else
    let yp := maybeSqueeze y_pred
    let yt := maybeSqueeze y
    if dtypeMismatch yp st._predictions then .error .predDtype
    else if dtypeMismatch yt st._targets then .error .targetDtype
    else
      let st' : EpochMetricState :=
        { _predictions := st._predictions ++ [yp], _targets := st._targets ++ [yt] }
      let warned := check_compute_fn && st._predictions.isEmpty &&
        (match compute_fn yp yt with
         | .error _ => true
         | .ok _ => false)
      .ok (st', warned)

/-- A sequence of `update` calls in order; stops at the first rejected
batch. -/
def runUpdates (check_compute_fn : Bool)
    (compute_fn : Tensor → Tensor → Except String PyValue)
    (st : EpochMetricState) :
    List (Tensor × Tensor) → Except UpdateError EpochMetricState
  | [] => .ok st
  | b :: bs =>
    match update check_compute_fn compute_fn st b.1 b.2 with
    | .error e => .error e
    | .ok (st', _) => runUpdates check_compute_fn compute_fn st' bs

/-- Modelled from the spec (sections 4.3 to 4.5): single-process
`EpochMetric.compute`.  Demands at least one stored batch (else
`NotComputableError`), concatenates each stored sequence along the batch
dimension, invokes `compute_fn` on the merged tensors (an exception
propagates verbatim), classifies the return value and hands it back
unmodified when accepted, raising the `TypeError` naming the accepted
categories otherwise.  The accumulation state is returned unchanged:
compute is a pure read. -/
def compute (compute_fn : Tensor → Tensor → Except String PyValue)
    (st : EpochMetricState) :
    Except ComputeError (PyValue × EpochMetricState) :=
  if st._predictions.isEmpty then .error .notComputable
  else
    let _prediction_tensor := catList st._predictions
    let _target_tensor := catList st._targets
    match compute_fn _prediction_tensor _target_tensor with
    | .error e => .error (.computeFnRaised e)
    | .ok v =>
      if _is_scalar_or_collection_of_tensor v then .ok (v, st)
      else .error .outputNotSupported

/-- Modelled from the spec (section 4.3): `compute` as executed by the
process of the given rank in a multi-process group whose per-process
accumulation states are `states` (indexed by rank).  The process first
demands at least one locally stored batch, concatenates its local sequences,
then the all-gather exchange hands every process the concatenation of all
per-process local concatenations ordered by rank; the rest proceeds as in the
single-process `compute`. -/
def computeDistrib (compute_fn : Tensor → Tensor → Except String PyValue)
    (states : List EpochMetricState) (rank : Nat) :
    Except ComputeError PyValue :=
  let local_st := states.getD rank EpochMetricState.reset
  if local_st._predictions.isEmpty then .error .notComputable
  else
    let _prediction_tensor := catList (states.map fun s => catList s._predictions)
    let _target_tensor := catList (states.map fun s => catList s._targets)
    match compute_fn _prediction_tensor _target_tensor with
    | .error e => .error (.computeFnRaised e)
    | .ok v =>
      if _is_scalar_or_collection_of_tensor v then .ok v
      else .error .outputNotSupported

/-- The single-process accumulation state holding every process's batches
ordered by process rank and then by local insertion order. -/
def mergeStates (states : List EpochMetricState) : EpochMetricState :=
  { _predictions := (states.map fun s => s._predictions).flatten,
    _targets := (states.map fun s => s._targets).flatten }

/-- The return-value categories the spec accepts (section 4.5): a plain
number, a tensor, a sequence whose every element is a tensor, or a mapping
whose every value is a tensor. -/
def ValidCategory (v : PyValue) : Prop :=
  (∃ n, v = .num n) ∨ (∃ t, v = .tensor t) ∨
    (∃ xs, v = .seq xs ∧ ∀ x ∈ xs, ∃ t, x = PyValue.tensor t) ∨
    (∃ kvs, v = .map kvs ∧ ∀ kv ∈ kvs, ∃ t, (kv : String × PyValue).2 = PyValue.tensor t)

/-- The exceptions `CohenKappa.__init__` can raise: the `RuntimeError` when
sklearn is not importable, the `ValueError` for an invalid `weights`
argument. -/
inductive CohenKappaError where
  | runtimeError
  | valueError
deriving DecidableEq

/-- The state `CohenKappa.__init__` stores before delegating to the
`EpochMetric` constructor: the validated weighting (`self.weights`). -/
structure CohenKappaState where
  weights : Option String
deriving DecidableEq

/-- `CohenKappa.__init__` from `ignite/contrib/metrics/cohen_kappa.py`:
first the sklearn import (an `ImportError` becomes a `RuntimeError`), then
the `weights` validation — a `ValueError` unless `weights` is `None`,
`"linear"` or `"quadratic"` — then the weighting is stored. -/
def CohenKappa.init (sklearn_available : Bool) (weights : Option String) :
    Except CohenKappaError CohenKappaState :=
  if ¬ sklearn_available then .error .runtimeError
  else if weights = none ∨ weights = some "linear" ∨ weights = some "quadratic" then
    .ok { weights := weights }
  else .error .valueError

/-- `CohenKappa.get_cohen_kappa_fn`: returns the wrapper closing over
`sklearn.metrics.cohen_kappa_score` (modelled as the abstract argument
`score`) that invokes it on the two tensors with the stored weighting. -/
def get_cohen_kappa_fn (score : Tensor → Tensor → Option String → Int)
    (self : CohenKappaState) : Tensor → Tensor → Int :=
  fun y_targets y_preds => score y_targets y_preds self.weights

/-! Helper lemmas about concatenation and the accumulation protocol. -/

/-- `catShape` is associative. -/
theorem catShape_assoc (a b c : List Nat) :
    catShape (catShape a b) c = catShape a (catShape b c) := by
  rcases a with _ | ⟨n, ra⟩ <;> rcases b with _ | ⟨m, rb⟩ <;> rcases c with _ | ⟨k, rc⟩ <;>
    simp [catShape, Nat.add_assoc]

/-- Concatenation of tensors along the batch dimension is associative. -/
theorem Tensor.cat_assoc (a b c : Tensor) :
    Tensor.cat (Tensor.cat a b) c = Tensor.cat a (Tensor.cat b c) := by
  simp [Tensor.cat, catShape_assoc, List.append_assoc]

/-- A left fold of `Tensor.cat` over a non-empty list peels off the
accumulator. -/
theorem foldl_cat_cons (z y : Tensor) (ys : List Tensor) :
    List.foldl Tensor.cat z (y :: ys) = Tensor.cat z (List.foldl Tensor.cat y ys) := by
  induction ys generalizing z y with
  | nil => rfl
  | cons a as ih =>
    show List.foldl Tensor.cat (Tensor.cat z y) (a :: as) = _
    rw [ih, ih y a, ← Tensor.cat_assoc]

/-- `catList` distributes over append of non-empty lists. -/
theorem catList_append (a b : List Tensor) (ha : a ≠ []) (hb : b ≠ []) :
    catList (a ++ b) = Tensor.cat (catList a) (catList b) := by
  rcases a with _ | ⟨x, xs⟩
  · exact absurd rfl ha
  rcases b with _ | ⟨y, ys⟩
  · exact absurd rfl hb
  show catList (x :: (xs ++ y :: ys)) = _
  simp only [catList, List.foldl_append]
  exact foldl_cat_cons _ y ys

/-- Concatenating per-group concatenations equals concatenating the flattened
groups, for non-empty groups: the substance of the all-gather merge. -/
theorem catList_map_catList (groups : List (List Tensor))
    (h : ∀ g ∈ groups, g ≠ []) :
    catList (groups.map catList) = catList groups.flatten := by
  induction groups with
  | nil => rfl
  | cons g gs ih =>
    have hg : g ≠ [] := h g (by simp)
    by_cases hgs : gs = []
    · subst hgs
      simp [catList]
    · have hall : ∀ g' ∈ gs, g' ≠ [] := fun g' hg' => h g' (by simp [hg'])
      have hflat : gs.flatten ≠ [] := by
        rcases gs with _ | ⟨g2, gs2⟩
        · exact absurd rfl hgs
        · have hg2 : g2 ≠ [] := hall g2 (by simp)
          simp only [List.flatten_cons]
          intro hc
          exact hg2 (List.append_eq_nil.mp hc).1
      have hmap : gs.map catList ≠ [] := by
        simpa using hgs
      calc catList ((g :: gs).map catList)
          = catList ([catList g] ++ gs.map catList) := by simp
        _ = Tensor.cat (catList [catList g]) (catList (gs.map catList)) :=
            catList_append _ _ (by simp) hmap
        _ = Tensor.cat (catList g) (catList gs.flatten) := by
            rw [ih hall]; rfl
        _ = catList (g ++ gs.flatten) := (catList_append _ _ hg hflat).symm
        _ = catList (g :: gs).flatten := by simp

/-- Squeezing never changes the dtype. -/
theorem maybeSqueeze_dtype (t : Tensor) : (maybeSqueeze t).dtype = t.dtype := by
  unfold maybeSqueeze
  split <;> rfl

/-- A value classifies as a tensor exactly when it is one. -/
theorem isTensor_iff (x : PyValue) : x.isTensor = true ↔ ∃ t, x = PyValue.tensor t := by
  cases x <;> simp [PyValue.isTensor]

/-- A successful `update` appends exactly the squeezed halves. -/
theorem update_ok_state (check : Bool) (f : Tensor → Tensor → Except String PyValue)
    (st : EpochMetricState) (y_pred y : Tensor) (pr : EpochMetricState × Bool)
    (h : update check f st y_pred y = .ok pr) :
    pr.1 = { _predictions := st._predictions ++ [maybeSqueeze y_pred],
             _targets := st._targets ++ [maybeSqueeze y] } := by
  simp only [update] at h
  split_ifs at h
  simp only [Except.ok.injEq] at h
  rw [← h]

/-- A successful sequence of updates appends exactly the squeezed batch
halves, in insertion order. -/
theorem runUpdates_ok_state (check : Bool) (f : Tensor → Tensor → Except String PyValue)
    (batches : List (Tensor × Tensor)) (st0 st : EpochMetricState)
    (h : runUpdates check f st0 batches = .ok st) :
    st = { _predictions := st0._predictions ++ batches.map fun b => maybeSqueeze b.1,
           _targets := st0._targets ++ batches.map fun b => maybeSqueeze b.2 } := by
  induction batches generalizing st0 with
  | nil =>
    simp only [runUpdates, Except.ok.injEq] at h
    rw [← h]
    simp
  | cons b bs ih =>
    unfold runUpdates at h
    cases hu : update check f st0 b.1 b.2 with
    | error e => rw [hu] at h; exact absurd h (by simp)
    | ok pr =>
      obtain ⟨st1, w⟩ := pr
      rw [hu] at h
      have hst1 := update_ok_state check f st0 b.1 b.2 (st1, w) hu
      simp only at hst1
      rw [ih st1 h, hst1]
      simp

/-- Claim C1: on a single process, after N successful updates starting from a
reset state, `compute()` hands back exactly the value `compute_fn` returns
when invoked once on the concatenation, along the batch dimension and in
insertion order, of the N accumulated predictions batches and of the N
accumulated targets batches (each batch half as stored, i.e. after the
trailing-dimension-1 squeeze). -/
theorem epochMetric_compute_concatenation_equiv
    (check : Bool) (f : Tensor → Tensor → Except String PyValue)
    (batches : List (Tensor × Tensor)) (st : EpochMetricState) (v : PyValue)
    (hne : batches ≠ [])
    (hrun : runUpdates check f EpochMetricState.reset batches = .ok st)
    (hf : f (catList (batches.map fun b => maybeSqueeze b.1))
            (catList (batches.map fun b => maybeSqueeze b.2)) = .ok v)
    (hv : _is_scalar_or_collection_of_tensor v = true) :
    compute f st = .ok (v, st) := by
  have hst := runUpdates_ok_state check f batches _ st hrun
  subst hst
  simp only [compute, EpochMetricState.reset, List.nil_append]
  rw [if_neg (by simpa [List.isEmpty_iff] using hne), hf]
  simp [hv]

/-- Claim C5: `compute()` on an accumulation state holding no stored batch —
the state right after construction or after `reset()` — raises the
`NotComputableError`, whatever the user `compute_fn` is. -/
theorem epochMetric_empty_compute_raises
    (f : Tensor → Tensor → Except String PyValue) (st : EpochMetricState)
    (h : st._predictions = []) :
    compute f st = .error .notComputable := by
  simp only [compute]
  rw [if_pos (by simp [h])]

/-- Claim C5 witness: on a freshly reset metric, `compute` raises. -/
theorem epochMetric_empty_compute_raises_witness :
    compute (fun _ _ => .ok (.num 0)) EpochMetricState.reset = .error .notComputable :=
  epochMetric_empty_compute_raises (fun _ _ => .ok (.num 0)) EpochMetricState.reset rfl

/-- Claim C8: an `update` whose predictions tensor has rank other than 1 or 2
(rank 0 and rank 3 included) is rejected with the shape `ValueError` naming
the predictions; when the predictions pass, a targets tensor of invalid rank
is rejected with the shape `ValueError` naming the targets.  In both cases no
new state is produced, so the accumulated state is unchanged.  Rank-0 and
rank-3 tensors are indeed invalid, as the last two conjuncts record. -/
theorem epochMetric_rank_validation
    (check : Bool) (f : Tensor → Tensor → Except String PyValue)
    (st : EpochMetricState) (y_pred y : Tensor) :
    (validRank y_pred = false → update check f st y_pred y = .error .predShape) ∧
    (validRank y_pred = true → validRank y = false →
      update check f st y_pred y = .error .targetShape) ∧
    (∀ dt d, validRank { dtype := dt, shape := [], data := d } = false) ∧
    (∀ dt d a b c, validRank { dtype := dt, shape := [a, b, c], data := d } = false) := by
  refine ⟨fun h => ?_, fun h1 h2 => ?_, fun dt d => rfl, fun dt d a b c => rfl⟩
  · simp only [update]
    rw [if_pos (by simp [h])]
  · simp only [update]
    rw [if_neg (by simp [h1]), if_pos (by simp [h2])]

/-- Claim C8 witness: a rank-0 predictions tensor is rejected as the test
`test_epoch_metric_wrong_setup_or_input` pins, and a rank-3 targets tensor
after valid predictions is rejected naming the targets. -/
theorem epochMetric_rank_validation_witness :
    update false (fun _ _ => .ok (.num 0))
      EpochMetricState.reset { dtype := Dtype.float32, shape := [], data := [0] }
      { dtype := Dtype.float32, shape := [], data := [0] } = .error .predShape ∧
    update false (fun _ _ => .ok (.num 0))
      EpochMetricState.reset { dtype := Dtype.float32, shape := [4, 3], data := [] }
      { dtype := Dtype.float32, shape := [4, 3, 1], data := [] } = .error .targetShape := by
  constructor
  · exact (epochMetric_rank_validation false (fun _ _ => .ok (.num 0))
      EpochMetricState.reset _ _).1 rfl
  · exact (epochMetric_rank_validation false (fun _ _ => .ok (.num 0))
      EpochMetricState.reset _ _).2.1 rfl rfl

/-- Claim C1 witness: two concrete float32/int64 batches accumulated from a
reset state; `compute` returns the value of `compute_fn` on the
concatenations. -/
theorem epochMetric_compute_concatenation_equiv_witness :
    compute (fun p _ => .ok (.tensor p))
      { _predictions := [{ dtype := Dtype.float32, shape := [2], data := [1, 2] },
                         { dtype := Dtype.float32, shape := [1], data := [3] }],
        _targets := [{ dtype := Dtype.int64, shape := [2], data := [0, 1] },
                     { dtype := Dtype.int64, shape := [1], data := [7] }] } =
      .ok (.tensor { dtype := Dtype.float32, shape := [3], data := [1, 2, 3] },
        { _predictions := [{ dtype := Dtype.float32, shape := [2], data := [1, 2] },
                           { dtype := Dtype.float32, shape := [1], data := [3] }],
          _targets := [{ dtype := Dtype.int64, shape := [2], data := [0, 1] },
                       { dtype := Dtype.int64, shape := [1], data := [7] }] }) :=
  epochMetric_compute_concatenation_equiv false (fun p _ => .ok (.tensor p))
    [({ dtype := Dtype.float32, shape := [2], data := [1, 2] },
      { dtype := Dtype.int64, shape := [2], data := [0, 1] }),
     ({ dtype := Dtype.float32, shape := [1], data := [3] },
      { dtype := Dtype.int64, shape := [1], data := [7] })]
    _ _ (by simp) rfl rfl rfl

/-- Claim C7: a rank-2 predictions (or targets) batch with trailing dimension
1 behaves exactly like the natively rank-1 tensor of the same values: the two
`update` calls return identical results (hence identical stored state and
identical `compute()` behaviour downstream), and the stored half is the
rank-1 squeeze of the input. -/
theorem epochMetric_squeeze_equivalence
    (check : Bool) (f : Tensor → Tensor → Except String PyValue)
    (st : EpochMetricState) (dt : Dtype) (n : Nat) (d : List Int) (y q : Tensor) :
    update check f st { dtype := dt, shape := [n, 1], data := d } y =
      update check f st { dtype := dt, shape := [n], data := d } y ∧
    update check f st q { dtype := dt, shape := [n, 1], data := d } =
      update check f st q { dtype := dt, shape := [n], data := d } ∧
    (∀ pr, update check f st { dtype := dt, shape := [n, 1], data := d } y = .ok pr →
      pr.1._predictions.getLast? = some { dtype := dt, shape := [n], data := d }) := by
  refine ⟨rfl, rfl, fun pr h => ?_⟩
  have hst := update_ok_state check f st _ y pr h
  rw [hst]
  exact List.getLast?_concat _

/-- Claim C7 witness: a concrete (3, 1) batch and its rank-1 twin. -/
theorem epochMetric_squeeze_equivalence_witness :
    update false (fun _ _ => .ok (.num 0)) EpochMetricState.reset
      { dtype := Dtype.float32, shape := [3, 1], data := [1, 2, 3] }
      { dtype := Dtype.int64, shape := [3], data := [0, 1, 0] } =
    update false (fun _ _ => .ok (.num 0)) EpochMetricState.reset
      { dtype := Dtype.float32, shape := [3], data := [1, 2, 3] }
      { dtype := Dtype.int64, shape := [3], data := [0, 1, 0] } ∧
    ((({ _predictions := [{ dtype := Dtype.float32, shape := [3], data := [1, 2, 3] }],
         _targets := [{ dtype := Dtype.int64, shape := [3], data := [0, 1, 0] }] },
       false) : EpochMetricState × Bool)).1._predictions.getLast? =
      some { dtype := Dtype.float32, shape := [3], data := [1, 2, 3] } := by
  constructor
  · exact (epochMetric_squeeze_equivalence false (fun _ _ => .ok (.num 0))
      EpochMetricState.reset Dtype.float32 3 [1, 2, 3]
      { dtype := Dtype.int64, shape := [3], data := [0, 1, 0] }
      { dtype := Dtype.int64, shape := [3], data := [0, 1, 0] }).1
  · exact (epochMetric_squeeze_equivalence false (fun _ _ => .ok (.num 0))
      EpochMetricState.reset Dtype.float32 3 [1, 2, 3]
      { dtype := Dtype.int64, shape := [3], data := [0, 1, 0] }
      { dtype := Dtype.int64, shape := [3], data := [0, 1, 0] }).2.2 _ rfl

/-- Claim C6 counterexample: with one float32 batch stored, an incoming
predictions tensor of rank 3 whose dtype (int64) also differs from the
stored dtype is rejected with the shape error, not the dtype-coherence
error — the rank validation runs first, so the claim's "regardless of shape
correctness" fails. -/
theorem epochMetric_dtype_claim_counterexample :
    update false (fun _ _ => .ok (.num 0))
      { _predictions := [{ dtype := Dtype.float32, shape := [3], data := [1, 2, 3] }],
        _targets := [{ dtype := Dtype.int64, shape := [3], data := [0, 1, 0] }] }
      { dtype := Dtype.int64, shape := [2, 2, 2], data := [1, 1, 1, 1, 1, 1, 1, 1] }
      { dtype := Dtype.int64, shape := [3], data := [0, 0, 1] } =
      .error .predShape ∧
    UpdateError.predShape ≠ UpdateError.predDtype :=
  ⟨rfl, by decide⟩

/-- Claim C6 (amended): whenever at least one batch is stored and the
incoming predictions and targets both pass the rank validation, a
predictions dtype differing from the stored predictions dtype raises the
dtype-coherence error; independently, with a matching predictions dtype, a
targets dtype differing from the stored targets dtype raises the targets
coherence error.  In both cases no new state is produced, so the accumulated
state is unchanged. -/
theorem epochMetric_dtype_incoherence_rejected
    (check : Bool) (f : Tensor → Tensor → Except String PyValue)
    (st : EpochMetricState) (y_pred y : Tensor) (p0 : Tensor) (ps : List Tensor)
    (hst : st._predictions = p0 :: ps)
    (hvp : validRank y_pred = true) (hvy : validRank y = true) :
    (y_pred.dtype ≠ p0.dtype → update check f st y_pred y = .error .predDtype) ∧
    (∀ t0 ts, st._targets = t0 :: ts → y_pred.dtype = p0.dtype → y.dtype ≠ t0.dtype →
      update check f st y_pred y = .error .targetDtype) := by
  constructor
  · intro hne
    simp only [update]
    rw [if_neg (by simp [hvp]), if_neg (by simp [hvy]),
      if_pos (by simp [hst, dtypeMismatch, maybeSqueeze_dtype, hne])]
  · intro t0 ts hts heq hne
    simp only [update]
    rw [if_neg (by simp [hvp]), if_neg (by simp [hvy]),
      if_neg (by simp [hst, dtypeMismatch, maybeSqueeze_dtype, heq]),
      if_pos (by simp [hts, dtypeMismatch, maybeSqueeze_dtype, hne])]

/-- Claim C6 witness (for the amended claim): a stored float32 batch and an
incoming rank-1 int64 predictions tensor of the same valid shape are rejected
with the predictions dtype-coherence error. -/
theorem epochMetric_dtype_incoherence_rejected_witness :
    update false (fun _ _ => .ok (.num 0))
      { _predictions := [{ dtype := Dtype.float32, shape := [3], data := [1, 2, 3] }],
        _targets := [{ dtype := Dtype.int64, shape := [3], data := [0, 1, 0] }] }
      { dtype := Dtype.int64, shape := [3], data := [9, 9, 9] }
      { dtype := Dtype.int64, shape := [3], data := [0, 0, 1] } = .error .predDtype :=
  (epochMetric_dtype_incoherence_rejected false (fun _ _ => .ok (.num 0))
    { _predictions := [{ dtype := Dtype.float32, shape := [3], data := [1, 2, 3] }],
      _targets := [{ dtype := Dtype.int64, shape := [3], data := [0, 1, 0] }] }
    { dtype := Dtype.int64, shape := [3], data := [9, 9, 9] }
    { dtype := Dtype.int64, shape := [3], data := [0, 0, 1] }
    { dtype := Dtype.float32, shape := [3], data := [1, 2, 3] } []
    rfl rfl rfl).1 (by decide)

/-- Claim C4: when the pre-flight self-check is enabled, an exception raised
by `compute_fn` on the very first stored batch is caught and surfaced as the
non-fatal `EpochMetricWarning` flag while the update completes with the batch
stored; when the self-check is disabled, the `update` result does not depend
on `compute_fn` at all (it is never invoked) and no warning is flagged. -/
theorem epochMetric_self_check_warning
    (f g : Tensor → Tensor → Except String PyValue) (st : EpochMetricState)
    (y_pred y : Tensor) (msg : String)
    (hvp : validRank y_pred = true) (hvy : validRank y = true)
    (hf : f (maybeSqueeze y_pred) (maybeSqueeze y) = .error msg) :
    update true f EpochMetricState.reset y_pred y =
      .ok ({ _predictions := [maybeSqueeze y_pred], _targets := [maybeSqueeze y] }, true) ∧
    update false f st y_pred y = update false g st y_pred y ∧
    (∀ pr, update false f st y_pred y = .ok pr → pr.2 = false) := by
  refine ⟨?_, rfl, fun pr h => ?_⟩
  · simp only [update, EpochMetricState.reset]
    rw [if_neg (by simp [hvp]), if_neg (by simp [hvy])]
    simp [dtypeMismatch, hf]
  · simp only [update] at h
    split_ifs at h
    simp only [Except.ok.injEq] at h
    rw [← h]
    exact rfl

/-- Claim C4 witness: the `test_bad_compute_fn` scenario — a (4, 3)
predictions batch against a (4, 4) targets batch with a `compute_fn` that
raises; under the enabled self-check the update completes, stores the batch
and flags the warning. -/
theorem epochMetric_self_check_warning_witness :
    update true (fun _ _ => .error "shape mismatch") EpochMetricState.reset
      { dtype := Dtype.float32, shape := [4, 3], data := [] }
      { dtype := Dtype.int64, shape := [4, 4], data := [] } =
      .ok ({ _predictions := [{ dtype := Dtype.float32, shape := [4, 3], data := [] }],
             _targets := [{ dtype := Dtype.int64, shape := [4, 4], data := [] }] }, true) :=
  (epochMetric_self_check_warning (fun _ _ => .error "shape mismatch")
    (fun _ _ => .ok (.num 0)) EpochMetricState.reset
    { dtype := Dtype.float32, shape := [4, 3], data := [] }
    { dtype := Dtype.int64, shape := [4, 4], data := [] } "shape mismatch"
    rfl rfl rfl).1

/-- Claim C9: `compute` is a pure read over the accumulated state: a
successful call hands the state back unchanged, a repeated call with no
intervening `update` or `reset` returns the identical value, and the merged
prediction and target tensors it rebuilds are bit-identical across the
calls. -/
theorem epochMetric_repeated_compute_stable
    (f : Tensor → Tensor → Except String PyValue) (st st' : EpochMetricState) (v : PyValue)
    (h : compute f st = .ok (v, st')) :
    st' = st ∧ compute f st' = .ok (v, st') ∧
    catList st'._predictions = catList st._predictions ∧
    catList st'._targets = catList st._targets := by
  have hst : st' = st := by
    simp only [compute] at h
    split_ifs at h
    cases hcf : f (catList st._predictions) (catList st._targets) with
    | error e => simp [hcf] at h
    | ok v0 =>
      simp only [hcf] at h
      split_ifs at h
      simp only [Except.ok.injEq, Prod.mk.injEq] at h
      exact h.2.symm
  subst hst
  exact ⟨rfl, h, rfl, rfl⟩

/-- Claim C9 witness: a concrete one-batch state; `compute` returns the
value with the state unchanged, so a second call returns the same value. -/
theorem epochMetric_repeated_compute_stable_witness :
    compute (fun _ _ => .ok (.num 5))
      { _predictions := [{ dtype := Dtype.float32, shape := [2], data := [1, 2] }],
        _targets := [{ dtype := Dtype.int64, shape := [2], data := [0, 1] }] } =
      .ok (.num 5,
        { _predictions := [{ dtype := Dtype.float32, shape := [2], data := [1, 2] }],
          _targets := [{ dtype := Dtype.int64, shape := [2], data := [0, 1] }] }) :=
  (epochMetric_repeated_compute_stable (fun _ _ => .ok (.num 5))
    { _predictions := [{ dtype := Dtype.float32, shape := [2], data := [1, 2] }],
      _targets := [{ dtype := Dtype.int64, shape := [2], data := [0, 1] }] }
    { _predictions := [{ dtype := Dtype.float32, shape := [2], data := [1, 2] }],
      _targets := [{ dtype := Dtype.int64, shape := [2], data := [0, 1] }] }
    (.num 5) rfl).2.1

/-- Claim C3: with at least one stored batch, when `compute_fn` returns a
value of one of the accepted categories — a plain number, a tensor, a
sequence whose every element is a tensor, or a mapping whose every value is
a tensor — `compute()` hands it back unmodified; any other value (a sequence
or mapping with a non-tensor element, a bare string, ...) is rejected with
the fatal `TypeError` naming the accepted categories. -/
theorem epochMetric_result_classification
    (f : Tensor → Tensor → Except String PyValue) (st : EpochMetricState) (v : PyValue)
    (hne : st._predictions ≠ [])
    (hf : f (catList st._predictions) (catList st._targets) = .ok v) :
    (ValidCategory v → compute f st = .ok (v, st)) ∧
    (¬ ValidCategory v → compute f st = .error .outputNotSupported) := by
  have hclass : _is_scalar_or_collection_of_tensor v = true ↔ ValidCategory v := by
    cases v <;>
      simp [ValidCategory, _is_scalar_or_collection_of_tensor, List.all_eq_true, isTensor_iff]
  constructor
  · intro h
    have hv : _is_scalar_or_collection_of_tensor v = true := hclass.mpr h
    simp only [compute]
    rw [if_neg (by simpa [List.isEmpty_iff] using hne), hf]
    simp [hv]
  · intro h
    have hv : _is_scalar_or_collection_of_tensor v = false := by
      cases hc : _is_scalar_or_collection_of_tensor v
      · rfl
      · exact absurd (hclass.mp hc) h
    simp only [compute]
    rw [if_neg (by simpa [List.isEmpty_iff] using hne), hf]
    simp [hv]

/-- Claim C3 witness: a `compute_fn` returning a two-tensor sequence has that
exact sequence handed back by `compute` unmodified. -/
theorem epochMetric_result_classification_witness :
    compute (fun _ _ => .ok (.seq [.tensor { dtype := Dtype.int64, shape := [1], data := [7] },
                                   .tensor { dtype := Dtype.int64, shape := [1], data := [9] }]))
      { _predictions := [{ dtype := Dtype.float32, shape := [1], data := [2] }],
        _targets := [{ dtype := Dtype.int64, shape := [1], data := [1] }] } =
      .ok (.seq [.tensor { dtype := Dtype.int64, shape := [1], data := [7] },
                 .tensor { dtype := Dtype.int64, shape := [1], data := [9] }],
        { _predictions := [{ dtype := Dtype.float32, shape := [1], data := [2] }],
          _targets := [{ dtype := Dtype.int64, shape := [1], data := [1] }] }) :=
  (epochMetric_result_classification
    (fun _ _ => .ok (.seq [.tensor { dtype := Dtype.int64, shape := [1], data := [7] },
                           .tensor { dtype := Dtype.int64, shape := [1], data := [9] }]))
    { _predictions := [{ dtype := Dtype.float32, shape := [1], data := [2] }],
      _targets := [{ dtype := Dtype.int64, shape := [1], data := [1] }] }
    (.seq [.tensor { dtype := Dtype.int64, shape := [1], data := [7] },
           .tensor { dtype := Dtype.int64, shape := [1], data := [9] }])
    (by simp) rfl).1 (by simp [ValidCategory])

/-- Claim C2: in a multi-process group whose per-process states each hold at
least one batch, `compute()` on any rank returns exactly what a
single-process `compute()` returns over the state holding every process's
batches ordered by process rank and then by local insertion order (the
result carries no state in the distributed reading, hence the projection). -/
theorem epochMetric_distributed_matches_single_process
    (f : Tensor → Tensor → Except String PyValue)
    (states : List EpochMetricState) (rank : Nat)
    (hrank : rank < states.length)
    (hp : ∀ s ∈ states, s._predictions ≠ [])
    (ht : ∀ s ∈ states, s._targets ≠ []) :
    computeDistrib f states rank = (compute f (mergeStates states)).map Prod.fst := by
  have hmem : states.getD rank EpochMetricState.reset ∈ states := by
    rw [List.getD_eq_getElem states _ hrank]
    exact List.getElem_mem hrank
  have hlocal : (states.getD rank EpochMetricState.reset)._predictions ≠ [] := hp _ hmem
  have hPflat : ((states.map fun s => s._predictions).flatten) ≠ [] := by
    intro hc
    exact hlocal (List.flatten_eq_nil_iff.mp hc _ (List.mem_map_of_mem _ hmem))
  have eP : catList (states.map fun s => catList s._predictions) =
      catList (states.map fun s => s._predictions).flatten := by
    have hmm : (states.map fun s => catList s._predictions) =
        (states.map fun s => s._predictions).map catList := by
      rw [List.map_map]
      exact rfl
    rw [hmm]
    refine catList_map_catList _ ?_
    intro g hg
    obtain ⟨s, hs, rfl⟩ := List.mem_map.mp hg
    exact hp s hs
  have eT : catList (states.map fun s => catList s._targets) =
      catList (states.map fun s => s._targets).flatten := by
    have hmm : (states.map fun s => catList s._targets) =
        (states.map fun s => s._targets).map catList := by
      rw [List.map_map]
      exact rfl
    rw [hmm]
    refine catList_map_catList _ ?_
    intro g hg
    obtain ⟨s, hs, rfl⟩ := List.mem_map.mp hg
    exact ht s hs
  simp only [computeDistrib, compute, mergeStates]
  rw [if_neg (by simpa [List.isEmpty_iff] using hlocal),
    if_neg (by simpa [List.isEmpty_iff] using hPflat), eP, eT]
  cases hcf : f (catList (states.map fun s => s._predictions).flatten)
      (catList (states.map fun s => s._targets).flatten) with
  | error e => simp [Except.map]
  | ok v =>
    cases hcv : _is_scalar_or_collection_of_tensor v
    · simp [hcv, Except.map]
    · simp [hcv, Except.map]

/-- Claim C2 witness: two single-batch processes; the rank-0 distributed
result equals the merged single-process result. -/
theorem epochMetric_distributed_matches_single_process_witness :
    computeDistrib (fun p _ => .ok (.tensor p))
      [{ _predictions := [{ dtype := Dtype.float32, shape := [1], data := [1] }],
         _targets := [{ dtype := Dtype.int64, shape := [1], data := [0] }] },
       { _predictions := [{ dtype := Dtype.float32, shape := [2], data := [2, 3] }],
         _targets := [{ dtype := Dtype.int64, shape := [2], data := [1, 0] }] }] 0 =
    (compute (fun p _ => .ok (.tensor p))
      (mergeStates
        [{ _predictions := [{ dtype := Dtype.float32, shape := [1], data := [1] }],
           _targets := [{ dtype := Dtype.int64, shape := [1], data := [0] }] },
         { _predictions := [{ dtype := Dtype.float32, shape := [2], data := [2, 3] }],
           _targets := [{ dtype := Dtype.int64, shape := [2], data := [1, 0] }] }])).map
      Prod.fst :=
  epochMetric_distributed_matches_single_process (fun p _ => .ok (.tensor p))
    [{ _predictions := [{ dtype := Dtype.float32, shape := [1], data := [1] }],
       _targets := [{ dtype := Dtype.int64, shape := [1], data := [0] }] },
     { _predictions := [{ dtype := Dtype.float32, shape := [2], data := [2, 3] }],
       _targets := [{ dtype := Dtype.int64, shape := [2], data := [1, 0] }] }] 0
    (by decide) (by decide) (by decide)

/-- Claim C10: with sklearn importable, `CohenKappa.__init__` raises the
`ValueError` exactly when `weights` is not one of `None`, `"linear"`,
`"quadratic"`; for those three values construction succeeds, the weighting is
stored, and the wrapped compute function passes exactly the stored weighting
to `cohen_kappa_score`. -/
theorem cohenKappa_weights_validation (w : Option String) :
    (CohenKappa.init true w = .error .valueError ↔
      ¬ (w = none ∨ w = some "linear" ∨ w = some "quadratic")) ∧
    ((w = none ∨ w = some "linear" ∨ w = some "quadratic") →
      CohenKappa.init true w = .ok { weights := w } ∧
      ∀ score y_targets y_preds,
        get_cohen_kappa_fn score { weights := w } y_targets y_preds =
          score y_targets y_preds w) := by
  constructor
  · simp only [CohenKappa.init]
    rw [if_neg (by simp)]
    by_cases h : w = none ∨ w = some "linear" ∨ w = some "quadratic"
    · rw [if_pos h]
      simp [h]
    · rw [if_neg h]
      simp [h]
  · intro h
    refine ⟨?_, fun score y_targets y_preds => rfl⟩
    simp only [CohenKappa.init]
    rw [if_neg (by simp), if_pos h]

/-- Claim C10 witness: `weights = "linear"` constructs and stores the
weighting; `weights = "cubic"` is rejected with the `ValueError`. -/
theorem cohenKappa_weights_validation_witness :
    CohenKappa.init true (some "linear") = .ok { weights := some "linear" } ∧
    CohenKappa.init true (some "cubic") = .error .valueError := by
  constructor
  · exact ((cohenKappa_weights_validation (some "linear")).2 (Or.inr (Or.inl rfl))).1
  · exact (cohenKappa_weights_validation (some "cubic")).1.mpr (by simp)
